import Mathlib

/-!
Shallow embedding of the `firebase-edu-programs` repository (two Python
scripts: `calculate_metrics copy 4.py`, the Metrics Calculator, and
`generate_html_pages copy.py`, the Page Generator) together with proofs
settling the frozen claims about them.

Modelling conventions:
* A pandas `DataFrame` is a `Frame`: a list of column names plus a list of
  rows, each row a total function from column name to `Cell`.
* A `Cell` is either a numeric value (`num`, any entry `pd.to_numeric`
  parses, held exactly as a rational), a non-numeric string (`str`), or a
  missing value (`na`, pandas `NaN`).
* Floating point is modelled by exact rational arithmetic; `round(n)`
  is modelled by exact decimal round-half-to-even.
* pandas `.std()` (sample standard deviation, `ddof=1`) is represented by
  the sample variance, its square: the square root is irrational, and
  `Real.sqrt` would make the development noncomputable, while `sqrt` is
  injective and monotone on the nonnegative rationals, so every equality
  or ordering fact about the metrics is unaffected by the representation.
* Raising an exception is modelled with `Except`; `logging` / `print`
  output is modelled as an explicit list of log entries.
-/

inductive Cell : Type where
  | num (q : ℚ)
  | str (s : String)
  | na
deriving DecidableEq, Repr

/-- A pandas DataFrame: column names plus rows (each row reads a `Cell` at
every column name; names outside `cols` are irrelevant for frames built by
the embedded operations). -/
structure Frame : Type where
  cols : List String
  rows : List (String → Cell)

/-- `df[c]` as a list of cells (column extraction). -/
def getCol (f : Frame) (c : String) : List Cell :=
  f.rows.map (fun r => r c)

/-- The pair of columns `(k, c)` extracted row-wise: the exact data
dependency of `df.groupby(k)[c]`. -/
def colPairs (f : Frame) (k c : String) : List (Cell × Cell) :=
  f.rows.map (fun r => (r k, r c))

/-- `df[n] = vals`: overwrite column `n` in place if present, else append
it; row `i` gets `vals[i]`. -/
def setColumn (f : Frame) (n : String) (vals : List Cell) : Frame :=
  { cols := if n ∈ f.cols then f.cols else f.cols ++ [n],
    rows := List.zipWith (fun r v => fun c => if c = n then v else r c) f.rows vals }

/-- Numeric view of a cell (`NaN` and non-numeric strings are missing). -/
def toNum : Cell → Option ℚ
  | .num q => some q
  | .str _ => none
  | .na => none

/-- `pd.to_numeric(errors='coerce')` on one cell: parseable entries keep
their numeric value, everything else becomes missing. -/
def coerceCell : Cell → Cell
  | .num q => .num q
  | .str _ => .na
  | .na => .na

def ocell : Option ℚ → Cell
  | some q => .num q
  | none => .na

/-- `self.survey_cols = [f"Survey{i}" for i in range(1, 8)]`. -/
def survey_cols : List String :=
  ["Survey1", "Survey2", "Survey3", "Survey4", "Survey5", "Survey6", "Survey7"]

/-- `self.required_columns = self.survey_cols + [...]`. -/
def required_columns : List String :=
  survey_cols ++ ["College", "Campus", "GroupCode", "CourseCode", "CourseName"]

/-- `self.optional_columns = ["Department"]`. -/
def optional_columns : List String := ["Department"]

/-- `[col for col in self.required_columns if col not in self.df.columns]`. -/
def missing_cols (f : Frame) : List String :=
  required_columns.filter (fun c => ¬ c ∈ f.cols)

/-- `self.df[self.survey_cols] = self.df[self.survey_cols].apply(pd.to_numeric, errors='coerce')`. -/
def coerceSurvey (f : Frame) : Frame :=
  { cols := f.cols,
    rows := f.rows.map (fun r => fun c => if c ∈ survey_cols then coerceCell (r c) else r c) }

/-- Log output of the constructor (`logging.error` / `logging.warning`). -/
inductive LogEntry : Type where
  | errorMissing (cols : List String)
  | warnOptional (col : String)
deriving DecidableEq, Repr

/-- `MetricsCalculator.__init__` after the file has been read: validate the
required columns (raising `ValueError` carrying the missing set, logged
first), warn about each missing optional column, coerce the survey columns
to numeric. -/
def initCalculator (f : Frame) : List LogEntry × Except (List String) Frame :=
  let miss := missing_cols f
  if miss.isEmpty then
    ((optional_columns.filter (fun c => ¬ c ∈ f.cols)).map .warnOptional,
     .ok (coerceSurvey f))
  else
    ([.errorMissing miss], .error miss)

/-- C1: constructing the `MetricsCalculator` on a table lacking required
columns raises an error whose payload is exactly the set of missing
required columns, with that set logged; with no required column missing,
construction does not raise on this account. -/
theorem c1_missing_required_columns (f : Frame) :
    (missing_cols f ≠ [] →
      (initCalculator f).2 = .error (missing_cols f) ∧
      (initCalculator f).1 = [LogEntry.errorMissing (missing_cols f)]) ∧
    (missing_cols f = [] → (initCalculator f).2 = .ok (coerceSurvey f)) := by
  constructor
  · intro h
    have h' : ¬ (missing_cols f).isEmpty := by
      simpa [List.isEmpty_iff] using h
    simp [initCalculator, h']
  · intro h
    simp [initCalculator, h]

/-- A frame with all twelve required columns and one row. -/
def frameOK : Frame :=
  { cols := required_columns,
    rows := [fun c => if c ∈ survey_cols then Cell.num 4 else Cell.str "x"] }

/-- A frame missing the `College` and `Campus` columns. -/
def frameMissing : Frame :=
  { cols := survey_cols ++ ["GroupCode", "CourseCode", "CourseName"],
    rows := [] }

/-- C1 witness: on a concrete frame missing `College` and `Campus`,
construction raises with exactly that missing set. -/
theorem c1_missing_required_columns_witness :
    missing_cols frameMissing ≠ [] ∧
    (initCalculator frameMissing).2 = .error (missing_cols frameMissing) :=
  ⟨by decide, ((c1_missing_required_columns frameMissing).1 (by decide)).1⟩

/-! ### Numeric aggregation primitives (pandas semantics) -/

/-- pandas mean of a list of exact values: `NaN` on an empty list. -/
def qmean (l : List ℚ) : Option ℚ :=
  if l.length = 0 then none else some (l.sum / l.length)

/-- pandas `Series.mean()` (skipna): mean of the present values, `NaN` if
none are present. -/
def omean (l : List (Option ℚ)) : Option ℚ :=
  qmean l.reduceOption

/-- pandas `Series.median()` (skipna): middle of the sorted present
values, average of the two middles on an even count. -/
def omedian (l : List (Option ℚ)) : Option ℚ :=
  let v := List.insertionSort (fun a b => a ≤ b) l.reduceOption
  let n := v.length
  if n = 0 then none
  else if n % 2 = 1 then some (v.getD (n / 2) 0)
  else some ((v.getD (n / 2 - 1) 0 + v.getD (n / 2) 0) / 2)

/-- pandas `Series.std()` (skipna, `ddof=1`), represented by the sample
variance (see the header comment): `NaN` when fewer than two values are
present. -/
def ovar (l : List (Option ℚ)) : Option ℚ :=
  let v := l.reduceOption
  let n := v.length
  if n < 2 then none
  else
    let m := v.sum / n
    some ((v.map (fun x => (x - m) ^ 2)).sum / (n - 1))

/-- Exact round-half-to-even to an integer (the tie rule of IEEE/numpy
rounding). -/
def rhe (x : ℚ) : ℤ :=
  let n := ⌊x⌋
  let frac := x - n
  if frac < 1 / 2 then n
  else if 1 / 2 < frac then n + 1
  else if n % 2 = 0 then n else n + 1

/-- pandas `.round(2)`. -/
def round2 (q : ℚ) : ℚ := (rhe (q * 100) : ℚ) / 100

/-- pandas `.round(3)`. -/
def round3 (q : ℚ) : ℚ := (rhe (q * 1000) : ℚ) / 1000

/-- Keep the first occurrence of every element (the distinct values of a
column, in order of appearance). -/
def dedupKeep {α : Type} [DecidableEq α] : List α → List α
  | [] => []
  | a :: l => a :: dedupKeep (l.filter (fun x => x ≠ a))
termination_by l => l.length
decreasing_by
  simpa [Nat.lt_succ_iff] using List.length_filter_le (fun x => x ≠ a) l

theorem mem_dedupKeep {α : Type} [DecidableEq α] :
    ∀ (l : List α) (x : α), x ∈ dedupKeep l ↔ x ∈ l
  | [], x => by simp [dedupKeep]
  | a :: l, x => by
    rw [dedupKeep]
    by_cases hx : x = a
    · simp [hx]
    · simp only [List.mem_cons, hx, false_or]
      rw [mem_dedupKeep (l.filter (fun y => y ≠ a)) x]
      simp [hx]
termination_by l _ => l.length
decreasing_by
  simpa [Nat.lt_succ_iff] using List.length_filter_le (fun y => y ≠ a) l

theorem nodup_dedupKeep {α : Type} [DecidableEq α] :
    ∀ l : List α, (dedupKeep l).Nodup
  | [] => by simp [dedupKeep]
  | a :: l => by
    rw [dedupKeep]
    refine List.nodup_cons.mpr ⟨?_, nodup_dedupKeep (l.filter (fun x => x ≠ a))⟩
    intro hmem
    have := (mem_dedupKeep _ a).mp hmem
    simp at this
termination_by l => l.length
decreasing_by
  simpa [Nat.lt_succ_iff] using List.length_filter_le (fun x => x ≠ a) l

/-! ### Grouped aggregation (`df.groupby(k)[c]`) -/

/-- The group keys of `df.groupby(k)`: the distinct non-missing values of
column `k` (pandas drops `NaN` keys). -/
def groupKeys (f : Frame) (k : String) : List Cell :=
  dedupKeep ((getCol f k).filter (fun x => x ≠ Cell.na))

/-- Number of distinct non-missing values of a column
(`Series.nunique()`). -/
def nuniqueCol (f : Frame) (c : String) : ℕ :=
  (dedupKeep ((getCol f c).filter (fun x => x ≠ Cell.na))).length

/-- The values of column `c` over the rows whose key column `k` equals
`key`, as numbers-or-missing. -/
def groupVals (f : Frame) (k c : String) (key : Cell) : List (Option ℚ) :=
  (colPairs f k c).filterMap (fun p => if p.1 = key then some (toNum p.2) else none)

/-- `df.groupby(k)[c].mean()` at one key. -/
def groupMean (f : Frame) (k c : String) (key : Cell) : Option ℚ :=
  omean (groupVals f k c key)

/-- `df.groupby(k)[c].mean()` as a key-indexed table. -/
def groupMeans (f : Frame) (k c : String) : List (Cell × Option ℚ) :=
  (groupKeys f k).map (fun key => (key, groupMean f k c key))

/-- `groupMeans` followed by `.round(2)`. -/
def groupMeansR2 (f : Frame) (k c : String) : List (Cell × Option ℚ) :=
  (groupMeans f k c).map (fun p => (p.1, p.2.map round2))

/-- `df.groupby(k).size()` at one key. -/
def groupSize (f : Frame) (k : String) (key : Cell) : ℕ :=
  ((getCol f k).filter (fun x => x = key)).length

/-- `df.groupby(k)[c].nunique()` at one key. -/
def groupNunique (f : Frame) (k c : String) (key : Cell) : ℕ :=
  (dedupKeep (((colPairs f k c).filterMap
    (fun p => if p.1 = key then some p.2 else none)).filter
      (fun x => x ≠ Cell.na))).length

/-! ### Descending sort by value (`sort_values(ascending=False)`) -/

/-- A possibly-missing score viewed in `WithBot ℚ`: `NaN` sorts below
every number, which is pandas `na_position='last'` for a descending
sort. -/
def obq : Option ℚ → WithBot ℚ
  | none => ⊥
  | some q => (q : WithBot ℚ)

/-- Descending comparison on `(key, mean)` entries, missing means last. -/
def byMeanDesc (a b : Cell × Option ℚ) : Prop := obq b.2 ≤ obq a.2

instance : DecidableRel byMeanDesc := fun a b =>
  inferInstanceAs (Decidable (obq b.2 ≤ obq a.2))

instance : IsTotal (Cell × Option ℚ) byMeanDesc :=
  ⟨fun a b => le_total (obq b.2) (obq a.2)⟩

instance : IsTrans (Cell × Option ℚ) byMeanDesc :=
  ⟨fun _ _ _ hab hbc => le_trans hbc hab⟩

/-- `df.groupby(k)[c].mean().sort_values(ascending=False).head(10)`. -/
def top10raw (f : Frame) (k c : String) : List (Cell × Option ℚ) :=
  (List.insertionSort byMeanDesc (groupMeans f k c)).take 10

/-- `... .head(10).round(2).to_dict()`. -/
def top10By (f : Frame) (k c : String) : List (Cell × Option ℚ) :=
  (top10raw f k c).map (fun p => (p.1, p.2.map round2))

/-! ### Metric result structures -/

structure OverallEval : Type where
  mean : Option ℚ
  response_rate : Option ℚ
deriving DecidableEq, Repr

structure PerQuestion : Type where
  mean : Option ℚ
  median : Option ℚ
  std : Option ℚ
  response_rate : Option ℚ
deriving DecidableEq, Repr

structure ScoreDistribution : Type where
  high : Option ℚ
  medium : Option ℚ
  low : Option ℚ
deriving DecidableEq, Repr

structure EvaluationMetrics : Type where
  overall : OverallEval
  per_question : List (String × PerQuestion)
  score_distribution : ScoreDistribution
  college_scores : List (String × List (Cell × Option ℚ))
deriving DecidableEq, Repr

structure OverallPerf : Type where
  mean_gpa : Option ℚ
  std_gpa : Option ℚ
deriving DecidableEq, Repr

structure GroupStat : Type where
  mean : Option ℚ
  std : Option ℚ
  count : ℕ
deriving DecidableEq, Repr

structure PerformanceMetrics : Type where
  overall : OverallPerf
  college_performance : List (Cell × GroupStat)
  course_performance : List (Cell × GroupStat)
deriving DecidableEq, Repr

structure CollegeDist : Type where
  section_count : ℕ
  course_count : ℕ
deriving DecidableEq, Repr

/-- `Series.describe()` output (std represented by the variance). -/
structure DescribeStats : Type where
  count : ℚ
  mean : Option ℚ
  std : Option ℚ
  min : Option ℚ
  q25 : Option ℚ
  q50 : Option ℚ
  q75 : Option ℚ
  max : Option ℚ
deriving DecidableEq, Repr

structure DemographicMetrics : Type where
  college_distribution : List (Cell × CollegeDist)
  campus_distribution : List (Cell × ℕ)
  course_size : DescribeStats
deriving DecidableEq, Repr

structure AvgScoreViews : Type where
  by_department : List (Cell × Option ℚ)
  by_college : List (Cell × Option ℚ)
  by_humanities_sciences : List (Cell × Option ℚ)
deriving DecidableEq, Repr

structure AdditionalMetrics : Type where
  average_scores : List (String × AvgScoreViews)
  top_10_colleges : List (String × List (Cell × Option ℚ))
  top_10_courses : List (String × List (Cell × Option ℚ))
  course_name_keywords : List (String × ℕ)
deriving DecidableEq, Repr

/-! ### The score-distribution bucket predicates -/

/-- `score >= 4.5` on one cell value (`False` on `NaN`, as in pandas). -/
def cellHigh : Option ℚ → Bool
  | some q => decide ((4.5 : ℚ) ≤ q)
  | none => false

/-- `(score >= 3) & (score < 4.5)` on one cell value. -/
def cellMed : Option ℚ → Bool
  | some q => decide ((3 : ℚ) ≤ q ∧ q < (4.5 : ℚ))
  | none => false

/-- `score < 3` on one cell value. -/
def cellLow : Option ℚ → Bool
  | some q => decide (q < (3 : ℚ))
  | none => false

/-- Column `c` as numbers-or-missing. -/
def colNums (f : Frame) (c : String) : List (Option ℚ) :=
  (getCol f c).map toNum

/-- `(bool_frame[c]).mean()`: fraction of rows of column `c` satisfying
`p` (`NaN` on an empty frame). -/
def colBoolMean (f : Frame) (c : String) (p : Option ℚ → Bool) : Option ℚ :=
  if f.rows.length = 0 then none
  else some (((colNums f c).countP p : ℚ) / (f.rows.length : ℚ))

/-- `(bool_frame).mean().mean() * 100` over the seven survey columns. -/
def distLevel (f : Frame) (p : Option ℚ → Bool) : Option ℚ :=
  (omean (survey_cols.map (fun c => colBoolMean f c p))).map (fun x => x * 100)

/-- `Series.notna().mean() * 100, rounded`, for one column. -/
def responseRate (f : Frame) (c : String) : Option ℚ :=
  (colBoolMean f c (fun v => v.isSome)).map (fun x => round2 (x * 100))

/-! ### The five operations of the `MetricsCalculator` -/

/-- `calculate_evaluation_metrics` as a state transformer on `self.df`
(the method does not assign to `self.df`). -/
def calculate_evaluation_metrics (f : Frame) : Frame × EvaluationMetrics :=
  (f,
   { overall :=
       { mean := omean (survey_cols.map (fun c => omean (colNums f c))),
         response_rate :=
           (omean (survey_cols.map (fun c => colBoolMean f c (fun v => v.isSome)))).map
             (fun x => round2 (x * 100)) },
     per_question := survey_cols.map (fun c =>
       (c, { mean := omean (colNums f c),
             median := omedian (colNums f c),
             std := ovar (colNums f c),
             response_rate := responseRate f c })),
     score_distribution :=
       { high := distLevel f cellHigh,
         medium := distLevel f cellMed,
         low := distLevel f cellLow },
     college_scores := survey_cols.map (fun c => (c, groupMeansR2 f "College" c)) })

/-- `gpa_scale = 4.5 / 5`; `self.df[...].mean(axis=1) * gpa_scale` as a
cell list (row means skip missing entries; an all-missing row stays
missing). -/
def gpaCells (f : Frame) : List Cell :=
  f.rows.map (fun r =>
    ocell ((omean (survey_cols.map (fun c => toNum (r c)))).map
      (fun m => m * (4.5 / 5 : ℚ))))

/-- The grouped `agg({'gpa_equiv': ['mean', 'std', 'count']}).round(3)`. -/
def perfBy (f : Frame) (k : String) : List (Cell × GroupStat) :=
  (groupKeys f k).map (fun key =>
    (key, { mean := (groupMean f k "gpa_equiv" key).map round3,
            std := (ovar (groupVals f k "gpa_equiv" key)).map round3,
            count := (groupVals f k "gpa_equiv" key).reduceOption.length }))

/-- The metrics dictionary of `calculate_performance_metrics`, read from
the frame after the `gpa_equiv` assignment. -/
def perfMetricsOf (f1 : Frame) : PerformanceMetrics :=
  { overall :=
      { mean_gpa := omean (colNums f1 "gpa_equiv"),
        std_gpa := ovar (colNums f1 "gpa_equiv") },
    college_performance := perfBy f1 "College",
    course_performance := perfBy f1 "GroupCode" }

/-- `calculate_performance_metrics`: writes `self.df['gpa_equiv']`, then
computes overall and grouped statistics of the new column. -/
def calculate_performance_metrics (f : Frame) : Frame × PerformanceMetrics :=
  let f1 := setColumn f "gpa_equiv" (gpaCells f)
  (f1, perfMetricsOf f1)

/-- Linear-interpolation percentile of a sorted list (pandas
`describe()` quartiles); `NaN` on an empty list. -/
def percentileSorted (l : List ℚ) (p : ℚ) : Option ℚ :=
  if l.length = 0 then none
  else
    let h := p * ((l.length : ℚ) - 1)
    let i := (⌊h⌋).toNat
    let frac := h - (⌊h⌋ : ℚ)
    some (l.getD i 0 + frac * (l.getD (i + 1) (l.getD i 0) - l.getD i 0))

/-- `Series.describe().round(2)` of a list of exact values. -/
def describeR2 (l : List ℚ) : DescribeStats :=
  let s := List.insertionSort (fun a b => a ≤ b) l
  { count := round2 (l.length : ℚ),
    mean := (qmean l).map round2,
    std := (ovar (l.map some)).map round2,
    min := (s.head?).map round2,
    q25 := (percentileSorted s (1 / 4)).map round2,
    q50 := (percentileSorted s (1 / 2)).map round2,
    q75 := (percentileSorted s (3 / 4)).map round2,
    max := (s.getLast?).map round2 }

/-- `calculate_demographic_metrics` as a state transformer. -/
def calculate_demographic_metrics (f : Frame) : Frame × DemographicMetrics :=
  (f,
   { college_distribution := (groupKeys f "College").map (fun key =>
       (key, { section_count := groupNunique f "College" "GroupCode" key,
               course_count := groupNunique f "College" "CourseCode" key })),
     campus_distribution := (groupKeys f "Campus").map (fun key =>
       (key, groupSize f "Campus" key)),
     course_size := describeR2 ((groupKeys f "GroupCode").map
       (fun key => (groupSize f "GroupCode" key : ℚ))) })

/-- Python `str(cell)` (`str(nan)` is `"nan"`; the exact rendering of a
numeric cell is irrelevant to every claim). -/
def pyStr : Cell → String
  | .num q => toString q
  | .str s => s
  | .na => "nan"

/-- `Counter(...).most_common(10)` over the lower-cased whitespace-split
words of `CourseName`: distinct words with their counts, sorted by count
descending (stably, matching `Counter` insertion order on ties), first
ten. -/
def courseNameKeywords (f : Frame) : List (String × ℕ) :=
  let words := (getCol f "CourseName").flatMap
    (fun cell => ((pyStr cell).splitOn " ").filter (fun w => w ≠ "") |>.map
      (fun w => w.toLower))
  let tally := (dedupKeep words).map (fun w => (w, words.count w))
  (List.insertionSort (fun a b : String × ℕ => b.2 ≤ a.2) tally).take 10

/-- `calculate_additional_metrics` as a state transformer (the
`by_department` view is the empty mapping when the optional `Department`
column is absent). -/
def calculate_additional_metrics (f : Frame) : Frame × AdditionalMetrics :=
  (f,
   { average_scores := survey_cols.map (fun c =>
       (c, { by_department :=
               if "Department" ∈ f.cols then groupMeansR2 f "Department" c else [],
             by_college := groupMeansR2 f "College" c,
             by_humanities_sciences := groupMeansR2 f "Campus" c })),
     top_10_colleges := survey_cols.map (fun c => (c, top10By f "College" c)),
     top_10_courses := survey_cols.map (fun c => (c, top10By f "CourseCode" c)),
     course_name_keywords := courseNameKeywords f })

/-- Two-decimal rendering of an exact value (Python `f"{x:.2f}"`). -/
def fmt2q (q : ℚ) : String :=
  let n := rhe (q * 100)
  let sign := if n < 0 then "-" else ""
  let m := n.natAbs
  let r := m % 100
  sign ++ toString (m / 100) ++ "." ++ (if r < 10 then "0" else "") ++ toString r

def fmtFloat2 : Option ℚ → String
  | none => "nan"
  | some q => fmt2q q

/-- `generate_summary_report`: re-runs the evaluation, performance (which
writes `gpa_equiv` into `self.df`) and demographic computations, then
renders the text report from their values. -/
def generate_summary_report (f : Frame) : Frame × String :=
  let em := (calculate_evaluation_metrics f).2
  let pr := calculate_performance_metrics f
  let dm := (calculate_demographic_metrics pr.1).2
  (pr.1,
   String.intercalate "\n"
     (["Summary Report",
       "===============",
       "Total Students: " ++ toString pr.1.rows.length,
       "Unique Courses: " ++ toString (nuniqueCol pr.1 "CourseCode"),
       "Course Sections: " ++ toString (nuniqueCol pr.1 "GroupCode"),
       "Overall Satisfaction: " ++ fmtFloat2 em.overall.mean ++ "/5",
       "Average GPA Equivalent: " ++ fmtFloat2 pr.2.overall.mean_gpa ++ "/4.5",
       "\nCollege Distribution",
       "-------------------"] ++
      dm.college_distribution.map (fun p =>
        pyStr p.1 ++ ": " ++ toString p.2.section_count ++ " sections")))

/-! ### Infrastructure: reads through `setColumn` and `coerceSurvey` -/

theorem zipWith_eq_map_left {α β γ : Type} (g : α → β → γ) (h : α → γ)
    (hg : ∀ a b, g a b = h a) :
    ∀ (as' : List α) (bs : List β), as'.length = bs.length →
      List.zipWith g as' bs = as'.map h
  | [], [], _ => rfl
  | [], _ :: _, hl => by simp at hl
  | _ :: _, [], hl => by simp at hl
  | a :: as', b :: bs, hl => by
    simp only [List.zipWith_cons_cons, List.map_cons, hg a b]
    exact congrArg _ (zipWith_eq_map_left g h hg as' bs (by simpa using hl))

theorem length_rows_setColumn (f : Frame) (n : String) (vals : List Cell)
    (h : vals.length = f.rows.length) :
    (setColumn f n vals).rows.length = f.rows.length := by
  simp [setColumn, h]

theorem zipWith_upd_read (n : String) {α : Type} (g : (String → Cell) → α)
    (hg : ∀ r v, g (fun c => if c = n then v else r c) = g r) :
    ∀ (rows : List (String → Cell)) (vals : List Cell), rows.length = vals.length →
      (List.zipWith (fun r v => fun c => if c = n then v else r c) rows vals).map g
        = rows.map g
  | [], [], _ => rfl
  | [], _ :: _, h => by simp at h
  | _ :: _, [], h => by simp at h
  | r :: rows, v :: vals, h => by
    simp only [List.zipWith_cons_cons, List.map_cons]
    exact congrArg₂ List.cons (hg r v) (zipWith_upd_read n g hg rows vals (by simpa using h))

theorem zipWith_upd_read_self (n : String) :
    ∀ (rows : List (String → Cell)) (vals : List Cell), rows.length = vals.length →
      (List.zipWith (fun r v => fun c => if c = n then v else r c) rows vals).map
        (fun r => r n) = vals
  | [], [], _ => rfl
  | [], _ :: _, h => by simp at h
  | _ :: _, [], h => by simp at h
  | r :: rows, v :: vals, h => by
    simp only [List.zipWith_cons_cons, List.map_cons]
    exact congrArg₂ List.cons (by simp) (zipWith_upd_read_self n rows vals (by simpa using h))

theorem getCol_setColumn_self (f : Frame) (n : String) (vals : List Cell)
    (h : vals.length = f.rows.length) :
    getCol (setColumn f n vals) n = vals :=
  zipWith_upd_read_self n f.rows vals h.symm

theorem getCol_setColumn_ne (f : Frame) (n : String) (vals : List Cell)
    (c : String) (hc : c ≠ n) (h : vals.length = f.rows.length) :
    getCol (setColumn f n vals) c = getCol f c :=
  zipWith_upd_read n (fun r => r c) (fun r v => by simp [hc]) f.rows vals h.symm

theorem colPairs_setColumn_ne (f : Frame) (n : String) (vals : List Cell)
    (k c : String) (hk : k ≠ n) (hc : c ≠ n) (h : vals.length = f.rows.length) :
    colPairs (setColumn f n vals) k c = colPairs f k c :=
  zipWith_upd_read n (fun r => (r k, r c)) (fun r v => by simp [hk, hc]) f.rows vals h.symm

/-! ### Claim C2: frame effects of the metric operations -/

/-- C2 counterexample: `calculate_performance_metrics` does NOT leave the
loaded frame unchanged — on a concrete valid input frame the frame after
the call differs from the frame before (the `gpa_equiv` column has been
added), refuting the claim that every metric operation is read-only on
the frame. -/
theorem c2_counterexample :
    (calculate_performance_metrics frameOK).1 ≠ frameOK := by
  intro h
  have h2 := congrArg (fun fr : Frame => fr.cols) h
  simp only [calculate_performance_metrics, setColumn] at h2
  rw [if_neg (by decide : ¬ "gpa_equiv" ∈ frameOK.cols)] at h2
  exact absurd (congrArg List.length h2) (by decide)

/-- C2 (amended): `calculate_evaluation_metrics`,
`calculate_demographic_metrics` and `calculate_additional_metrics` leave
the frame unchanged; `calculate_performance_metrics` (and
`generate_summary_report`, which invokes it) writes exactly the single
column `gpa_equiv` — appending it if absent, overwriting it otherwise —
leaving every other column's cells and the row count unchanged. -/
theorem c2_amended_frame_effects (f : Frame) :
    (calculate_evaluation_metrics f).1 = f ∧
    (calculate_demographic_metrics f).1 = f ∧
    (calculate_additional_metrics f).1 = f ∧
    (calculate_performance_metrics f).1.cols
      = (if "gpa_equiv" ∈ f.cols then f.cols else f.cols ++ ["gpa_equiv"]) ∧
    (calculate_performance_metrics f).1.rows.length = f.rows.length ∧
    (∀ c, c ≠ "gpa_equiv" →
      getCol (calculate_performance_metrics f).1 c = getCol f c) ∧
    (generate_summary_report f).1 = (calculate_performance_metrics f).1 := by
  refine ⟨rfl, rfl, rfl, rfl, ?_, ?_, rfl⟩
  · exact length_rows_setColumn f _ _ (by simp [gpaCells])
  · intro c hc
    exact getCol_setColumn_ne f _ _ c hc (by simp [gpaCells])

/-- C2 (amended) witness: on a concrete frame, a non-`gpa_equiv` column
reads the same after `calculate_performance_metrics`. -/
theorem c2_amended_frame_effects_witness :
    ("Survey1" : String) ≠ "gpa_equiv" ∧
    getCol (calculate_performance_metrics frameOK).1 "Survey1"
      = getCol frameOK "Survey1" :=
  ⟨by decide, (c2_amended_frame_effects frameOK).2.2.2.2.2.1 "Survey1" (by decide)⟩

/-! ### Claim C5: the GPA-equivalent is a linear rescaling -/

/-- Row `i` of the frame (reading `na` everywhere when out of range). -/
def rowAt (f : Frame) (i : ℕ) : String → Cell :=
  f.rows.getD i (fun _ => Cell.na)

/-- The seven survey entries of row `i`, as numbers-or-missing. -/
def rowSurveyVals (f : Frame) (i : ℕ) : List (Option ℚ) :=
  survey_cols.map (fun c => toNum (rowAt f i c))

/-- The mean of the seven survey scores of row `i` (all present). -/
def rowSurveyMean (f : Frame) (i : ℕ) : ℚ :=
  (rowSurveyVals f i).reduceOption.sum / 7

theorem omean_all_some (l : List (Option ℚ)) (h : ∀ v ∈ l, v.isSome)
    (hne : l ≠ []) :
    omean l = some (l.reduceOption.sum / (l.length : ℚ)) := by
  have hlen : l.reduceOption.length = l.length :=
    List.reduceOption_length_eq_iff.mpr h
  unfold omean qmean
  rw [hlen, if_neg (by simpa [List.length_eq_zero] using hne)]

/-- C5: `calculate_performance_metrics` derives every row's GPA-equivalent
by linear rescaling of the row's mean survey score: for a row with all
seven scores present, `gpa_equiv` is the mean of the seven scores times
`4.5 / 5`; a mean of `0` maps to `0` and a mean of `5` maps to `4.5`. -/
theorem c5_gpa_linear_rescale (f : Frame) (i : ℕ) (hi : i < f.rows.length)
    (h : ∀ v ∈ rowSurveyVals f i, v.isSome) :
    (getCol (calculate_performance_metrics f).1 "gpa_equiv").getD i Cell.na
        = Cell.num (rowSurveyMean f i * (4.5 / 5 : ℚ)) ∧
    (rowSurveyMean f i = 0 →
      (getCol (calculate_performance_metrics f).1 "gpa_equiv").getD i Cell.na
        = Cell.num 0) ∧
    (rowSurveyMean f i = 5 →
      (getCol (calculate_performance_metrics f).1 "gpa_equiv").getD i Cell.na
        = Cell.num 4.5) := by
  have hcol : getCol (calculate_performance_metrics f).1 "gpa_equiv" = gpaCells f :=
    getCol_setColumn_self f _ _ (by simp [gpaCells])
  have hlen : i < (gpaCells f).length := by simpa [gpaCells] using hi
  have hmain :
      (getCol (calculate_performance_metrics f).1 "gpa_equiv").getD i Cell.na
        = Cell.num (rowSurveyMean f i * (4.5 / 5 : ℚ)) := by
    rw [hcol, List.getD_eq_getElem _ _ hlen]
    unfold gpaCells
    rw [List.getElem_map]
    have hrow : f.rows[i] = rowAt f i := by
      rw [rowAt, List.getD_eq_getElem _ _ hi]
    rw [hrow]
    have hm : omean (survey_cols.map (fun c => toNum (rowAt f i c)))
        = some (rowSurveyMean f i) := by
      have h2 := omean_all_some (rowSurveyVals f i) h (by simp [rowSurveyVals, survey_cols])
      have hlen7 : ((rowSurveyVals f i).length : ℚ) = 7 := by
        simp [rowSurveyVals, survey_cols]
      rw [hlen7] at h2
      exact h2
    rw [hm]
    rfl
  refine ⟨hmain, ?_, ?_⟩
  · intro h0; rw [hmain, h0]; norm_num
  · intro h5; rw [hmain, h5]; norm_num

/-- C5 witness: on a concrete one-row frame with all survey scores `4`,
the `gpa_equiv` cell equals the row mean times `4.5 / 5`. -/
theorem c5_gpa_linear_rescale_witness :
    0 < frameOK.rows.length ∧ (∀ v ∈ rowSurveyVals frameOK 0, v.isSome) ∧
    (getCol (calculate_performance_metrics frameOK).1 "gpa_equiv").getD 0 Cell.na
      = Cell.num (rowSurveyMean frameOK 0 * (4.5 / 5 : ℚ)) :=
  ⟨by decide, by decide, (c5_gpa_linear_rescale frameOK 0 (by decide) (by decide)).1⟩

/-! ### Claim C7: survey columns are coerced to numeric-or-missing -/

/-- C7: after successful construction, every survey-column entry of the
calculator's frame is the numeric coercion of the input entry: parseable
entries keep their value, everything else becomes missing, and the frame
handed to the aggregate computations is exactly this coerced frame. -/
theorem c7_numeric_coercion (f : Frame) (hreq : missing_cols f = []) :
    (initCalculator f).2 = .ok (coerceSurvey f) ∧
    (∀ c ∈ survey_cols, getCol (coerceSurvey f) c = (getCol f c).map coerceCell) ∧
    (∀ q, coerceCell (Cell.num q) = Cell.num q) ∧
    (∀ s, coerceCell (Cell.str s) = Cell.na) ∧
    coerceCell Cell.na = Cell.na := by
  refine ⟨by simp [initCalculator, hreq], ?_, fun q => rfl, fun s => rfl, rfl⟩
  intro c hc
  simp [getCol, coerceSurvey, List.map_map, hc]

/-- C7 witness: concrete successful construction returning the coerced
frame. -/
theorem c7_numeric_coercion_witness :
    missing_cols frameOK = [] ∧
    (initCalculator frameOK).2 = .ok (coerceSurvey frameOK) :=
  ⟨by decide, (c7_numeric_coercion frameOK (by decide)).1⟩

/-! ### Claim C9: the score distribution buckets -/

/-- Total number of non-missing survey cells of the frame. -/
def presentCount (f : Frame) : ℕ :=
  (survey_cols.map (fun c => (colNums f c).countP (fun v => v.isSome))).sum

theorem reduceOption_map_some {α β : Type} (l : List α) (g : α → β) :
    (l.map (fun x => some (g x))).reduceOption = l.map g := by
  induction l with
  | nil => rfl
  | cons a t ih => simp [ih]

theorem list_sum_map_add {α M : Type} [AddCommMonoid M] (l : List α) (g₁ g₂ : α → M) :
    (l.map (fun x => g₁ x + g₂ x)).sum = (l.map g₁).sum + (l.map g₂).sum := by
  induction l with
  | nil => simp
  | cons a t ih =>
    simp only [List.map_cons, List.sum_cons, ih]
    abel

theorem list_sum_map_div {α : Type} (l : List α) (g : α → ℚ) (d : ℚ) :
    (l.map (fun x => g x / d)).sum = (l.map g).sum / d := by
  simp only [div_eq_mul_inv]
  exact List.sum_map_mul_right l g d⁻¹

theorem list_all_eq_of_sum_eq (l : List ℕ) (b : ℕ) (hle : ∀ x ∈ l, x ≤ b)
    (hsum : l.sum = l.length * b) : ∀ x ∈ l, x = b := by
  induction l with
  | nil => simp
  | cons a t ih =>
    simp only [List.sum_cons, List.length_cons] at hsum
    have ha : a ≤ b := hle a (by simp)
    have hts : t.sum ≤ t.length * b := by
      have := List.sum_le_card_nsmul t b (fun x hx => hle x (List.mem_cons_of_mem _ hx))
      simpa [smul_eq_mul, Nat.mul_comm] using this
    rw [Nat.succ_mul] at hsum
    have ha2 : a = b := by omega
    have hs2 : t.sum = t.length * b := by omega
    intro x hx
    rcases List.mem_cons.mp hx with rfl | hx'
    · exact ha2
    · exact ih (fun y hy => hle y (List.mem_cons_of_mem _ hy)) hs2 x hx'

/-- On a non-empty frame, each percentage of the score distribution is
the bucket's cell count over all survey cells, scaled. -/
theorem distLevel_eq (f : Frame) (p : Option ℚ → Bool) (h : f.rows.length ≠ 0) :
    distLevel f p = some
      ((((survey_cols.map (fun c => (colNums f c).countP p)).sum : ℕ) : ℚ)
        / (f.rows.length : ℚ) / 7 * 100) := by
  unfold distLevel
  have hmap : survey_cols.map (fun c => colBoolMean f c p)
      = survey_cols.map (fun c =>
          some ((((colNums f c).countP p : ℕ) : ℚ) / (f.rows.length : ℚ))) := by
    apply List.map_congr_left
    intro c _
    simp [colBoolMean, h]
  rw [hmap, omean, reduceOption_map_some]
  unfold qmean
  rw [if_neg (by simp [survey_cols])]
  have hlen : ((survey_cols.map (fun c =>
      (((colNums f c).countP p : ℕ) : ℚ) / (f.rows.length : ℚ))).length : ℚ) = 7 := by
    simp [survey_cols]
  rw [hlen]
  rw [list_sum_map_div survey_cols (fun c => (((colNums f c).countP p : ℕ) : ℚ))
    (f.rows.length : ℚ)]
  rw [Nat.cast_list_sum, List.map_map]
  rfl

theorem presentCount_le (f : Frame) : presentCount f ≤ 7 * f.rows.length := by
  unfold presentCount
  have := List.sum_le_card_nsmul (survey_cols.map
      (fun c => (colNums f c).countP (fun v => v.isSome))) f.rows.length ?_
  · simpa [smul_eq_mul, survey_cols, Nat.mul_comm] using this
  · intro x hx
    rcases List.mem_map.mp hx with ⟨c, _, rfl⟩
    calc (colNums f c).countP (fun v => v.isSome) ≤ (colNums f c).length :=
          List.countP_le_length _
      _ = f.rows.length := by simp [colNums, getCol]

/-- C9: every survey cell lands in at most one of the high / medium / low
buckets and a missing cell in none; on a non-empty frame the three
percentages sum to `100 · present / total`, hence to exactly `100` iff no
survey cell is missing and to strictly less than `100` otherwise. -/
theorem c9_score_distribution (f : Frame) (h : f.rows.length ≠ 0) :
    (∀ v, (cellHigh v).toNat + (cellMed v).toNat + (cellLow v).toNat ≤ 1) ∧
    (cellHigh none = false ∧ cellMed none = false ∧ cellLow none = false) ∧
    ∃ hq mq lq : ℚ,
      ((calculate_evaluation_metrics f).2.score_distribution.high = some hq ∧
       (calculate_evaluation_metrics f).2.score_distribution.medium = some mq ∧
       (calculate_evaluation_metrics f).2.score_distribution.low = some lq) ∧
      hq + mq + lq = 100 * (presentCount f : ℚ) / (7 * (f.rows.length : ℚ)) ∧
      (presentCount f = 7 * f.rows.length ↔
        ∀ c ∈ survey_cols, ∀ v ∈ colNums f c, v.isSome) ∧
      (hq + mq + lq = 100 ↔ presentCount f = 7 * f.rows.length) ∧
      (presentCount f ≠ 7 * f.rows.length → hq + mq + lq < 100) := by
  have hbuckets : ∀ v : Option ℚ,
      (cellHigh v).toNat + (cellMed v).toNat + (cellLow v).toNat ≤ 1 := by
    intro v
    cases v with
    | none => simp [cellHigh, cellMed, cellLow]
    | some q =>
      simp only [cellHigh, cellMed, cellLow]
      by_cases h1 : (4.5 : ℚ) ≤ q
      · have h45 : ¬ (q < (4.5 : ℚ)) := not_lt.mpr h1
        have hl : ¬ (q < (3 : ℚ)) := by linarith
        simp [h1, h45, hl]
      · by_cases h3 : q < (3 : ℚ)
        · have h3f : ¬ ((3 : ℚ) ≤ q) := not_le.mpr h3
          simp [h1, h3f, h3]
        · have h3t : (3 : ℚ) ≤ q := not_lt.mp h3
          have h45 : q < (4.5 : ℚ) := lt_of_not_ge h1
          simp [h1, h3, h3t, h45]
  -- a present cell lands in exactly one bucket
  have hone : ∀ q : ℚ, (cellHigh (some q)).toNat + (cellMed (some q)).toNat
      + (cellLow (some q)).toNat = 1 := by
    intro q
    simp only [cellHigh, cellMed, cellLow]
    by_cases h1 : (4.5 : ℚ) ≤ q
    · have h45 : ¬ (q < (4.5 : ℚ)) := not_lt.mpr h1
      have hl : ¬ (q < (3 : ℚ)) := by linarith
      simp [h1, h45, hl]
    · by_cases h3 : q < (3 : ℚ)
      · have h3f : ¬ ((3 : ℚ) ≤ q) := not_le.mpr h3
        simp [h1, h3f, h3]
      · have h3t : (3 : ℚ) ≤ q := not_lt.mp h3
        have h45 : q < (4.5 : ℚ) := lt_of_not_ge h1
        simp [h1, h3, h3t, h45]
  -- per-column: the three bucket counts add up to the present count
  have count3 : ∀ l : List (Option ℚ),
      l.countP cellHigh + l.countP cellMed + l.countP cellLow
        = l.countP (fun v => v.isSome) := by
    intro l
    induction l with
    | nil => rfl
    | cons v t ih =>
      simp only [List.countP_cons]
      cases v with
      | none =>
        simp only [cellHigh, cellMed, cellLow, Option.isSome_none]
        simpa using ih
      | some q =>
        have h1 := hone q
        simp only [Option.isSome_some, if_true]
        rcases Bool.eq_false_or_eq_true (cellHigh (some q)) with hh | hh <;>
          rcases Bool.eq_false_or_eq_true (cellMed (some q)) with hm | hm <;>
          rcases Bool.eq_false_or_eq_true (cellLow (some q)) with hl | hl <;>
            simp [hh, hm, hl] at h1 ⊢ <;> omega
  have hn0 : (0 : ℚ) < (f.rows.length : ℚ) := by
    exact_mod_cast Nat.pos_of_ne_zero h
  set SH := (survey_cols.map (fun c => (colNums f c).countP cellHigh)).sum with hSH
  set SM := (survey_cols.map (fun c => (colNums f c).countP cellMed)).sum with hSM
  set SL := (survey_cols.map (fun c => (colNums f c).countP cellLow)).sum with hSL
  have hsum3 : SH + SM + SL = presentCount f := by
    rw [hSH, hSM, hSL, presentCount]
    rw [← list_sum_map_add, ← list_sum_map_add]
    refine congrArg List.sum ?_
    refine List.map_congr_left ?_
    intro c _
    exact count3 (colNums f c)
  have hcast : ((SH : ℚ) + SM + SL) = (presentCount f : ℚ) := by
    exact_mod_cast hsum3
  have hmain : (SH : ℚ) / (f.rows.length : ℚ) / 7 * 100
      + (SM : ℚ) / (f.rows.length : ℚ) / 7 * 100
      + (SL : ℚ) / (f.rows.length : ℚ) / 7 * 100
      = 100 * (presentCount f : ℚ) / (7 * (f.rows.length : ℚ)) := by
    rw [show (SH : ℚ) / (f.rows.length : ℚ) / 7 * 100
        + (SM : ℚ) / (f.rows.length : ℚ) / 7 * 100
        + (SL : ℚ) / (f.rows.length : ℚ) / 7 * 100
        = ((SH : ℚ) + (SM : ℚ) + (SL : ℚ)) / (f.rows.length : ℚ) / 7 * 100
      from by ring]
    rw [hcast]
    field_simp
    ring
  refine ⟨hbuckets, ⟨rfl, rfl, rfl⟩,
    (SH : ℚ) / (f.rows.length : ℚ) / 7 * 100,
    (SM : ℚ) / (f.rows.length : ℚ) / 7 * 100,
    (SL : ℚ) / (f.rows.length : ℚ) / 7 * 100,
    ⟨distLevel_eq f cellHigh h, distLevel_eq f cellMed h, distLevel_eq f cellLow h⟩,
    hmain, ?_, ?_, ?_⟩
  · -- present = total iff every survey cell is present
    constructor
    · intro hp c hc v hv
      have hall := list_all_eq_of_sum_eq
        (survey_cols.map (fun c2 => (colNums f c2).countP (fun v2 => v2.isSome)))
        f.rows.length
        (fun x hx => by
          rcases List.mem_map.mp hx with ⟨c2, _, rfl⟩
          calc (colNums f c2).countP (fun v2 => v2.isSome) ≤ (colNums f c2).length :=
                List.countP_le_length _
            _ = f.rows.length := by simp [colNums, getCol])
        (by simpa [presentCount, survey_cols, Nat.mul_comm] using hp)
      have hc2 : (colNums f c).countP (fun v2 => v2.isSome) = f.rows.length :=
        hall _ (List.mem_map.mpr ⟨c, hc, rfl⟩)
      have hlenc : (colNums f c).length = f.rows.length := by simp [colNums, getCol]
      exact List.countP_eq_length.mp (hc2.trans hlenc.symm) v hv
    · intro hall
      have heach : ∀ c ∈ survey_cols,
          (colNums f c).countP (fun v => v.isSome) = f.rows.length := by
        intro c hc
        have hx : (colNums f c).countP (fun v => v.isSome) = (colNums f c).length :=
          List.countP_eq_length.mpr (hall c hc)
        simpa [colNums, getCol] using hx
      rw [presentCount, List.map_congr_left heach]
      simp [survey_cols]
      ring
  · -- sum equals 100 iff present = total
    rw [hmain, div_eq_iff (by positivity)]
    constructor
    · intro he
      have h7 : (presentCount f : ℚ) = 7 * (f.rows.length : ℚ) := by linarith
      exact_mod_cast h7
    · intro he
      rw [he]
      push_cast
      ring
  · -- strictly less than 100 when a cell is missing
    intro hne
    have hlt : presentCount f < 7 * f.rows.length :=
      lt_of_le_of_ne (presentCount_le f) hne
    rw [hmain, div_lt_iff₀ (by positivity)]
    have hcastlt : (presentCount f : ℚ) < 7 * (f.rows.length : ℚ) := by
      exact_mod_cast hlt
    linarith

/-- C9 witness: concrete non-empty frame (all survey cells present in
`frameOK`, so the instantiated facts include the 100 iff). -/
theorem c9_score_distribution_witness :
    frameOK.rows.length ≠ 0 ∧
    ((∀ v, (cellHigh v).toNat + (cellMed v).toNat + (cellLow v).toNat ≤ 1) ∧
     (cellHigh none = false ∧ cellMed none = false ∧ cellLow none = false) ∧
     ∃ hq mq lq : ℚ,
      ((calculate_evaluation_metrics frameOK).2.score_distribution.high = some hq ∧
       (calculate_evaluation_metrics frameOK).2.score_distribution.medium = some mq ∧
       (calculate_evaluation_metrics frameOK).2.score_distribution.low = some lq) ∧
      hq + mq + lq = 100 * (presentCount frameOK : ℚ)
        / (7 * (frameOK.rows.length : ℚ)) ∧
      (presentCount frameOK = 7 * frameOK.rows.length ↔
        ∀ c ∈ survey_cols, ∀ v ∈ colNums frameOK c, v.isSome) ∧
      (hq + mq + lq = 100 ↔ presentCount frameOK = 7 * frameOK.rows.length) ∧
      (presentCount frameOK ≠ 7 * frameOK.rows.length → hq + mq + lq < 100)) :=
  ⟨by decide, c9_score_distribution frameOK (by decide)⟩

/-! ### Claim C8: top-10 rankings by college and by course -/

theorem top10_spec (f : Frame) (k c : String) :
    (top10By f k c).length = min 10 (groupKeys f k).length ∧
    List.Sorted byMeanDesc (top10raw f k c) ∧
    top10By f k c = (top10raw f k c).map (fun p => (p.1, p.2.map round2)) ∧
    (∀ p ∈ top10raw f k c, p.1 ∈ groupKeys f k ∧ p.2 = groupMean f k c p.1) ∧
    (∀ p ∈ top10raw f k c, ∀ key ∈ groupKeys f k,
      key ∉ (top10raw f k c).map Prod.fst →
        obq (groupMean f k c key) ≤ obq p.2) := by
  refine ⟨?_, ?_, rfl, ?_, ?_⟩
  · simp [top10By, top10raw, groupMeans]
  · exact List.Pairwise.sublist (List.take_sublist 10 _)
      (List.sorted_insertionSort byMeanDesc (groupMeans f k c))
  · intro p hp
    have hp2 : p ∈ List.insertionSort byMeanDesc (groupMeans f k c) :=
      (List.take_sublist 10 _).subset hp
    have hp3 : p ∈ groupMeans f k c := (List.mem_insertionSort byMeanDesc).mp hp2
    rcases List.mem_map.mp hp3 with ⟨key, hkey, rfl⟩
    exact ⟨hkey, rfl⟩
  · intro p hp key hkey hnot
    have hmemS : (key, groupMean f k c key)
        ∈ List.insertionSort byMeanDesc (groupMeans f k c) :=
      (List.mem_insertionSort byMeanDesc).mpr (List.mem_map.mpr ⟨key, hkey, rfl⟩)
    have hpw : List.Pairwise byMeanDesc
        ((List.insertionSort byMeanDesc (groupMeans f k c)).take 10
          ++ (List.insertionSort byMeanDesc (groupMeans f k c)).drop 10) := by
      rw [List.take_append_drop]
      exact List.sorted_insertionSort byMeanDesc (groupMeans f k c)
    have hmem2 : (key, groupMean f k c key)
        ∈ (List.insertionSort byMeanDesc (groupMeans f k c)).take 10
          ++ (List.insertionSort byMeanDesc (groupMeans f k c)).drop 10 := by
      rw [List.take_append_drop]
      exact hmemS
    rcases List.mem_append.mp hmem2 with hin | hin
    · exact absurd (List.mem_map.mpr ⟨(key, groupMean f k c key), hin, rfl⟩) hnot
    · exact (List.pairwise_append.mp hpw).2.2 p hp _ hin

theorem mem_groupKeys (f : Frame) (k : String) (x : Cell) :
    x ∈ groupKeys f k ↔ x ∈ getCol f k ∧ x ≠ Cell.na := by
  rw [groupKeys, mem_dedupKeep]
  simp [List.mem_filter]

/-- C8: for every survey question, the `top_10_colleges`
(resp. `top_10_courses`) table of `calculate_additional_metrics` has
exactly `min 10 (number of distinct colleges (resp. course codes))`
entries, they are groups with their (rounded) mean score for that
question, every excluded group's mean is at most every included one's,
and the entries are ordered by mean score descending (missing means
last). -/
theorem c8_top10_rankings (f : Frame) (c : String) (hc : c ∈ survey_cols) :
    ((c, top10By f "College" c) ∈ (calculate_additional_metrics f).2.top_10_colleges) ∧
    ((c, top10By f "CourseCode" c) ∈ (calculate_additional_metrics f).2.top_10_courses) ∧
    ((top10By f "College" c).length = min 10 (groupKeys f "College").length) ∧
    ((top10By f "CourseCode" c).length = min 10 (groupKeys f "CourseCode").length) ∧
    ((groupKeys f "College").Nodup ∧
      ∀ x, x ∈ groupKeys f "College" ↔ x ∈ getCol f "College" ∧ x ≠ Cell.na) ∧
    ((groupKeys f "CourseCode").Nodup ∧
      ∀ x, x ∈ groupKeys f "CourseCode" ↔ x ∈ getCol f "CourseCode" ∧ x ≠ Cell.na) ∧
    (List.Sorted byMeanDesc (top10raw f "College" c) ∧
      top10By f "College" c
        = (top10raw f "College" c).map (fun p => (p.1, p.2.map round2)) ∧
      (∀ p ∈ top10raw f "College" c,
        p.1 ∈ groupKeys f "College" ∧ p.2 = groupMean f "College" c p.1) ∧
      (∀ p ∈ top10raw f "College" c, ∀ key ∈ groupKeys f "College",
        key ∉ (top10raw f "College" c).map Prod.fst →
          obq (groupMean f "College" c key) ≤ obq p.2)) ∧
    (List.Sorted byMeanDesc (top10raw f "CourseCode" c) ∧
      top10By f "CourseCode" c
        = (top10raw f "CourseCode" c).map (fun p => (p.1, p.2.map round2)) ∧
      (∀ p ∈ top10raw f "CourseCode" c,
        p.1 ∈ groupKeys f "CourseCode" ∧ p.2 = groupMean f "CourseCode" c p.1) ∧
      (∀ p ∈ top10raw f "CourseCode" c, ∀ key ∈ groupKeys f "CourseCode",
        key ∉ (top10raw f "CourseCode" c).map Prod.fst →
          obq (groupMean f "CourseCode" c key) ≤ obq p.2)) := by
  obtain ⟨hl1, hs1, he1, hm1, ht1⟩ := top10_spec f "College" c
  obtain ⟨hl2, hs2, he2, hm2, ht2⟩ := top10_spec f "CourseCode" c
  exact ⟨List.mem_map.mpr ⟨c, hc, rfl⟩, List.mem_map.mpr ⟨c, hc, rfl⟩,
    hl1, hl2,
    ⟨nodup_dedupKeep _, fun x => mem_groupKeys f "College" x⟩,
    ⟨nodup_dedupKeep _, fun x => mem_groupKeys f "CourseCode" x⟩,
    ⟨hs1, he1, hm1, ht1⟩, ⟨hs2, he2, hm2, ht2⟩⟩

/-- C8 witness: instantiated on a concrete frame and `Survey1`. -/
theorem c8_top10_rankings_witness :
    ("Survey1" ∈ survey_cols) ∧
    (("Survey1", top10By frameOK "College" "Survey1")
      ∈ (calculate_additional_metrics frameOK).2.top_10_colleges) ∧
    ((top10By frameOK "College" "Survey1").length
      = min 10 (groupKeys frameOK "College").length) :=
  ⟨by decide,
   (c8_top10_rankings frameOK "Survey1" (by decide)).1,
   (c8_top10_rankings frameOK "Survey1" (by decide)).2.2.1⟩

/-! ### Congruence of the aggregates in their column reads -/

theorem groupMeans_congr {f₁ f₂ : Frame} {k c : String}
    (hk : getCol f₁ k = getCol f₂ k) (hp : colPairs f₁ k c = colPairs f₂ k c) :
    groupMeans f₁ k c = groupMeans f₂ k c := by
  unfold groupMeans groupKeys groupMean groupVals
  rw [hk, hp]

theorem groupMeansR2_congr {f₁ f₂ : Frame} {k c : String}
    (hk : getCol f₁ k = getCol f₂ k) (hp : colPairs f₁ k c = colPairs f₂ k c) :
    groupMeansR2 f₁ k c = groupMeansR2 f₂ k c := by
  unfold groupMeansR2
  rw [groupMeans_congr hk hp]

theorem top10By_congr {f₁ f₂ : Frame} {k c : String}
    (hk : getCol f₁ k = getCol f₂ k) (hp : colPairs f₁ k c = colPairs f₂ k c) :
    top10By f₁ k c = top10By f₂ k c := by
  unfold top10By top10raw
  rw [groupMeans_congr hk hp]

theorem getCol_coerceSurvey (f : Frame) (c : String) :
    getCol (coerceSurvey f) c
      = if c ∈ survey_cols then (getCol f c).map coerceCell else getCol f c := by
  by_cases hc : c ∈ survey_cols <;> simp [getCol, coerceSurvey, List.map_map, hc]

theorem colPairs_coerceSurvey (f : Frame) (k c : String) :
    colPairs (coerceSurvey f) k c
      = (colPairs f k c).map (fun p =>
          ((if k ∈ survey_cols then coerceCell p.1 else p.1),
           (if c ∈ survey_cols then coerceCell p.2 else p.2))) := by
  unfold colPairs coerceSurvey
  simp only [List.map_map]
  apply List.map_congr_left
  intro r _
  by_cases hk : k ∈ survey_cols <;> by_cases hc : c ∈ survey_cols <;> simp [hk, hc]

theorem getCol_coerce_setColumn (f : Frame) (d : String) (vals : List Cell)
    (c : String) (hc : c ≠ d) (h : vals.length = f.rows.length) :
    getCol (coerceSurvey (setColumn f d vals)) c = getCol (coerceSurvey f) c := by
  rw [getCol_coerceSurvey, getCol_coerceSurvey, getCol_setColumn_ne f d vals c hc h]

theorem colPairs_coerce_setColumn (f : Frame) (d : String) (vals : List Cell)
    (k c : String) (hk : k ≠ d) (hc : c ≠ d) (h : vals.length = f.rows.length) :
    colPairs (coerceSurvey (setColumn f d vals)) k c
      = colPairs (coerceSurvey f) k c := by
  rw [colPairs_coerceSurvey, colPairs_coerceSurvey,
    colPairs_setColumn_ne f d vals k c hk hc h]

/-! ### Claim C6: the optional `Department` column -/

/-- C6: on an input with all required columns but no `Department` column,
construction warns and succeeds; the `by_department` view of every survey
question is the empty mapping, and every aggregate not depending on
`Department` is the same as for the input extended with a `Department`
column. -/
theorem c6_optional_department (f : Frame) (hreq : missing_cols f = [])
    (hdep : ¬ "Department" ∈ f.cols) :
    (initCalculator f).2 = .ok (coerceSurvey f) ∧
    LogEntry.warnOptional "Department" ∈ (initCalculator f).1 ∧
    (∀ p ∈ (calculate_additional_metrics (coerceSurvey f)).2.average_scores,
      p.2.by_department = []) ∧
    (∀ vals : List Cell, vals.length = f.rows.length →
      ((calculate_additional_metrics
          (coerceSurvey (setColumn f "Department" vals))).2.top_10_colleges
        = (calculate_additional_metrics (coerceSurvey f)).2.top_10_colleges ∧
       (calculate_additional_metrics
          (coerceSurvey (setColumn f "Department" vals))).2.top_10_courses
        = (calculate_additional_metrics (coerceSurvey f)).2.top_10_courses ∧
       (calculate_additional_metrics
          (coerceSurvey (setColumn f "Department" vals))).2.course_name_keywords
        = (calculate_additional_metrics (coerceSurvey f)).2.course_name_keywords ∧
       ((calculate_additional_metrics
          (coerceSurvey (setColumn f "Department" vals))).2.average_scores).map
            (fun p => (p.1, p.2.by_college))
        = ((calculate_additional_metrics
            (coerceSurvey f)).2.average_scores).map (fun p => (p.1, p.2.by_college)) ∧
       ((calculate_additional_metrics
          (coerceSurvey (setColumn f "Department" vals))).2.average_scores).map
            (fun p => (p.1, p.2.by_humanities_sciences))
        = ((calculate_additional_metrics
            (coerceSurvey f)).2.average_scores).map
              (fun p => (p.1, p.2.by_humanities_sciences)))) := by
  have hsurv_ne : ∀ c ∈ survey_cols, c ≠ "Department" := by decide
  refine ⟨by simp [initCalculator, hreq], ?_, ?_, ?_⟩
  · simp [initCalculator, hreq, optional_columns, hdep]
  · intro p hp
    rcases List.mem_map.mp hp with ⟨c, _, rfl⟩
    simp only
    rw [if_neg]
    exact hdep
  · intro vals hlen
    refine ⟨?_, ?_, ?_, ?_, ?_⟩
    · simp only [calculate_additional_metrics]
      apply List.map_congr_left
      intro c hc
      rw [top10By_congr
        (getCol_coerce_setColumn f "Department" vals "College" (by decide) hlen)
        (colPairs_coerce_setColumn f "Department" vals "College" c (by decide)
          (hsurv_ne c hc) hlen)]
    · simp only [calculate_additional_metrics]
      apply List.map_congr_left
      intro c hc
      rw [top10By_congr
        (getCol_coerce_setColumn f "Department" vals "CourseCode" (by decide) hlen)
        (colPairs_coerce_setColumn f "Department" vals "CourseCode" c (by decide)
          (hsurv_ne c hc) hlen)]
    · unfold calculate_additional_metrics courseNameKeywords
      simp only
      rw [getCol_coerce_setColumn f "Department" vals "CourseName" (by decide) hlen]
    · simp only [calculate_additional_metrics, List.map_map]
      apply List.map_congr_left
      intro c hc
      simp only [Function.comp]
      rw [groupMeansR2_congr
        (getCol_coerce_setColumn f "Department" vals "College" (by decide) hlen)
        (colPairs_coerce_setColumn f "Department" vals "College" c (by decide)
          (hsurv_ne c hc) hlen)]
    · simp only [calculate_additional_metrics, List.map_map]
      apply List.map_congr_left
      intro c hc
      simp only [Function.comp]
      rw [groupMeansR2_congr
        (getCol_coerce_setColumn f "Department" vals "Campus" (by decide) hlen)
        (colPairs_coerce_setColumn f "Department" vals "Campus" c (by decide)
          (hsurv_ne c hc) hlen)]

/-- C6 witness: concrete frame with the required columns and no
`Department` column. -/
theorem c6_optional_department_witness :
    missing_cols frameOK = [] ∧ ¬ "Department" ∈ frameOK.cols ∧
    (initCalculator frameOK).2 = .ok (coerceSurvey frameOK) ∧
    LogEntry.warnOptional "Department" ∈ (initCalculator frameOK).1 :=
  ⟨by decide, by decide,
   (c6_optional_department frameOK (by decide) (by decide)).1,
   (c6_optional_department frameOK (by decide) (by decide)).2.1⟩

/-! ### Claim C10: idempotence of the performance computation -/

theorem upd_idem (n : String) : ∀ (rows : List (String → Cell)) (vals : List Cell),
    List.zipWith (fun r v => fun c => if c = n then v else r c)
      (List.zipWith (fun r v => fun c => if c = n then v else r c) rows vals) vals
    = List.zipWith (fun r v => fun c => if c = n then v else r c) rows vals
  | [], _ => by simp
  | _ :: _, [] => by simp
  | r :: rows, v :: vals => by
    simp only [List.zipWith_cons_cons]
    refine congrArg₂ List.cons ?_ (upd_idem n rows vals)
    funext c
    by_cases hc : c = n <;> simp [hc]

theorem setColumn_setColumn_same (f : Frame) (n : String) (vals : List Cell) :
    setColumn (setColumn f n vals) n vals = setColumn f n vals := by
  unfold setColumn
  simp only
  have hmem : n ∈ (if n ∈ f.cols then f.cols else f.cols ++ [n]) := by
    by_cases h : n ∈ f.cols
    · simp [h]
    · simp [h]
  rw [if_pos hmem]
  exact congrArg (Frame.mk _) (upd_idem n f.rows vals)

theorem gpaCells_setColumn_gpa (f : Frame) (vals : List Cell)
    (h : vals.length = f.rows.length) :
    gpaCells (setColumn f "gpa_equiv" vals) = gpaCells f := by
  have hsurv : ∀ c ∈ survey_cols, c ≠ "gpa_equiv" := by decide
  unfold gpaCells setColumn
  simp only
  refine zipWith_upd_read "gpa_equiv"
    (fun r => ocell ((omean (survey_cols.map (fun c => toNum (r c)))).map
      (fun m => m * (4.5 / 5 : ℚ)))) ?_ f.rows vals h.symm
  intro r v
  have hmap : survey_cols.map
      (fun c => toNum ((fun c2 => if c2 = "gpa_equiv" then v else r c2) c))
      = survey_cols.map (fun c => toNum (r c)) :=
    List.map_congr_left (fun c hc => by simp [hsurv c hc])
  simp only
  rw [hmap]

theorem eval_metrics_congr {f₁ f₂ : Frame}
    (hlen : f₁.rows.length = f₂.rows.length)
    (hcols : ∀ c ∈ survey_cols, getCol f₁ c = getCol f₂ c)
    (hC : getCol f₁ "College" = getCol f₂ "College")
    (hpairs : ∀ c ∈ survey_cols, colPairs f₁ "College" c = colPairs f₂ "College" c) :
    (calculate_evaluation_metrics f₁).2 = (calculate_evaluation_metrics f₂).2 := by
  have hnum : ∀ c ∈ survey_cols, colNums f₁ c = colNums f₂ c := by
    intro c hc
    unfold colNums
    rw [hcols c hc]
  have hbm : ∀ c ∈ survey_cols, ∀ p : Option ℚ → Bool,
      colBoolMean f₁ c p = colBoolMean f₂ c p := by
    intro c hc p
    unfold colBoolMean
    rw [hlen, hnum c hc]
  have hrr : ∀ c ∈ survey_cols, responseRate f₁ c = responseRate f₂ c := by
    intro c hc
    unfold responseRate
    rw [hbm c hc]
  have hgm : ∀ c ∈ survey_cols,
      groupMeansR2 f₁ "College" c = groupMeansR2 f₂ "College" c := by
    intro c hc
    exact groupMeansR2_congr hC (hpairs c hc)
  have hdl : ∀ p : Option ℚ → Bool, distLevel f₁ p = distLevel f₂ p := by
    intro p
    unfold distLevel
    exact congrArg _ (congrArg omean (List.map_congr_left (fun c hc => hbm c hc p)))
  simp only [calculate_evaluation_metrics]
  congr 1
  · congr 1
    · exact congrArg omean (List.map_congr_left (fun c hc => congrArg omean (hnum c hc)))
    · exact congrArg _ (congrArg omean (List.map_congr_left (fun c hc => hbm c hc _)))
  · exact List.map_congr_left (fun c hc => by rw [hnum c hc, hrr c hc])
  · congr 1
    · exact hdl _
    · exact hdl _
    · exact hdl _
  · exact List.map_congr_left (fun c hc => by rw [hgm c hc])

/-- C10: `calculate_performance_metrics` is idempotent — run on the frame
it produced, it returns the same metrics and the same frame, because
`gpa_equiv` is recomputed from the survey columns, which the assignment
does not touch; consequently `generate_summary_report`, which re-runs the
metric methods, reports the same text on the mutated frame as on the
original. -/
theorem c10_perf_idempotent (f : Frame) :
    (calculate_performance_metrics (calculate_performance_metrics f).1).2
      = (calculate_performance_metrics f).2 ∧
    (calculate_performance_metrics (calculate_performance_metrics f).1).1
      = (calculate_performance_metrics f).1 ∧
    (generate_summary_report (calculate_performance_metrics f).1).2
      = (generate_summary_report f).2 := by
  have hsurv : ∀ c ∈ survey_cols, c ≠ "gpa_equiv" := by decide
  have hlen : (gpaCells f).length = f.rows.length := by simp [gpaCells]
  have hg : gpaCells (setColumn f "gpa_equiv" (gpaCells f)) = gpaCells f :=
    gpaCells_setColumn_gpa f (gpaCells f) hlen
  have hfix : setColumn (setColumn f "gpa_equiv" (gpaCells f)) "gpa_equiv"
      (gpaCells (setColumn f "gpa_equiv" (gpaCells f)))
      = setColumn f "gpa_equiv" (gpaCells f) := by
    rw [hg]
    exact setColumn_setColumn_same f "gpa_equiv" (gpaCells f)
  have hperf : calculate_performance_metrics (calculate_performance_metrics f).1
      = calculate_performance_metrics f := by
    simp only [calculate_performance_metrics]
    rw [hfix]
  have heval : (calculate_evaluation_metrics (calculate_performance_metrics f).1).2
      = (calculate_evaluation_metrics f).2 := by
    apply eval_metrics_congr
    · exact length_rows_setColumn f _ _ hlen
    · intro c hc
      exact getCol_setColumn_ne f _ _ c (hsurv c hc) hlen
    · exact getCol_setColumn_ne f _ _ "College" (by decide) hlen
    · intro c hc
      exact colPairs_setColumn_ne f _ _ "College" c (by decide) (hsurv c hc) hlen
  refine ⟨by rw [hperf], by rw [hperf], ?_⟩
  simp only [generate_summary_report]
  rw [hperf, heval]

/-! ### The Page Generator (`generate_html_pages copy.py`)

The script loads five fixed metadata CSVs (each load wrapped in
`try/except` with a per-file `print`), sets up a Jinja2 environment over
`./templates`, and for the two wired pages renders a template over the
records of the corresponding frame — without any `try` around the
rendering, so `env.get_template` on an absent template raises
`TemplateNotFound` and aborts the script. The environment (which files
load, which templates exist, what rendering produces) is a parameter. -/

inductive MetaKey : Type where
  | core_metrics
  | groupcode_metrics
  | course_rankings
  | size_distribution
  | detailed_stats
deriving DecidableEq, Repr

/-- The fixed dictionary order of `metadata_files`. -/
def metaKeys : List MetaKey :=
  [.core_metrics, .groupcode_metrics, .course_rankings, .size_distribution, .detailed_stats]

/-- A loaded metadata frame, abstracted to the record list that
`to_dict(orient="records")` produces from it. -/
abbrev PGFrame : Type := List (List (String × Cell))

/-- A Jinja2 template context value. -/
inductive CtxVal : Type where
  | s (v : String)
  | recs (r : PGFrame)

/-- The outcome of one `pd.read_csv` plus the template directory and the
rendering function of the Jinja2 environment. -/
structure PGEnv : Type where
  load : MetaKey → Except String PGFrame
  templates : List String
  render : String → List (String × CtxVal) → String

inductive PGError : Type where
  | templateNotFound (name : String)
deriving DecidableEq, Repr

structure PageOut : Type where
  file : String
  html : String

/-- `generate_html`: `env.get_template` raises `TemplateNotFound` when the
template is absent; otherwise the rendered page is written to the output
name. -/
def generate_html (env : PGEnv) (templateName outputName : String)
    (ctx : List (String × CtxVal)) : Except PGError PageOut :=
  if templateName ∈ env.templates then
    .ok ⟨outputName, env.render templateName ctx⟩
  else
    .error (.templateNotFound templateName)

/-- Per-file outcome printed by the loading loop. -/
inductive LoadLog : Type where
  | loaded (k : MetaKey)
  | failed (k : MetaKey) (e : String)
deriving DecidableEq, Repr

/-- The loading loop: every file is attempted; failures are caught and
logged per file. -/
def loadLogs (env : PGEnv) : List LoadLog :=
  metaKeys.map (fun k =>
    match env.load k with
    | .ok _ => LoadLog.loaded k
    | .error e => LoadLog.failed k e)

/-- `dataframes.get(key)`: only successfully loaded frames are present. -/
def loadedFrames (env : PGEnv) (k : MetaKey) : Option PGFrame :=
  (env.load k).toOption

/-- One `if df is not None: generate_html(...)` block of the module
body. -/
def pageStep (env : PGEnv) (k : MetaKey) (tname fname title ckey : String) :
    Except PGError (List PageOut) :=
  match loadedFrames env k with
  | some df =>
      (generate_html env tname fname
        [("title", CtxVal.s title), (ckey, CtxVal.recs df)]).map (fun p => [p])
  | none => .ok []

/-- The module body after loading: demographics page from `core_metrics`,
then evaluation page from `detailed_stats`; an uncaught exception in
either aborts the script. -/
def runPageGen (env : PGEnv) : List LoadLog × Except PGError (List PageOut) :=
  (loadLogs env,
   (pageStep env .core_metrics "demographics_template.html" "demographics.html"
      "Demographics Analysis" "college_distribution").bind (fun p1 =>
    (pageStep env .detailed_stats "evaluation_template.html" "evaluation.html"
      "Evaluation Analysis" "evaluation_data").map (fun p2 => p1 ++ p2)))

/-- A Page Generator environment in which every metadata file loads but
the demographics template is absent (the evaluation template is
present). -/
def envNoDemoTemplate : PGEnv :=
  { load := fun _ => .ok ([[("College", Cell.str "A")]] : List (List (String × Cell))),
    templates := ["evaluation_template.html"],
    render := fun _ _ => "" }

/-- C3 counterexample: with the demographics template absent from the
templates directory, the run does NOT complete without raising — it
aborts with `TemplateNotFound`, and the evaluation page is not generated
even though its input frame loaded and its template exists. -/
theorem c3_counterexample :
    (runPageGen envNoDemoTemplate).2
      = .error (.templateNotFound "demographics_template.html") ∧
    loadedFrames envNoDemoTemplate .detailed_stats ≠ none ∧
    "evaluation_template.html" ∈ envNoDemoTemplate.templates := by
  refine ⟨rfl, ?_, by simp [envNoDemoTemplate]⟩
  simp [loadedFrames, envNoDemoTemplate, Except.toOption]

/-- C3 (amended): a missing input file degrades silently — the dependent
page is simply not generated, no error is raised on that account and the
rest of the run continues — but a missing template does not: when a page's
frame loaded and its named template is absent, `env.get_template` raises
`TemplateNotFound` and the run aborts. -/
theorem c3_amended_silent_and_raising (env : PGEnv) :
    ((loadedFrames env MetaKey.core_metrics = none ∧
      loadedFrames env MetaKey.detailed_stats = none) →
      (runPageGen env).2 = .ok []) ∧
    (∀ df, loadedFrames env MetaKey.core_metrics = some df →
      ¬ "demographics_template.html" ∈ env.templates →
      (runPageGen env).2 = .error (.templateNotFound "demographics_template.html")) ∧
    (loadedFrames env MetaKey.core_metrics = none →
      ∀ df, loadedFrames env MetaKey.detailed_stats = some df →
      "evaluation_template.html" ∈ env.templates →
      (runPageGen env).2 = .ok [⟨"evaluation.html",
        env.render "evaluation_template.html"
          [("title", CtxVal.s "Evaluation Analysis"),
           ("evaluation_data", CtxVal.recs df)]⟩]) := by
  refine ⟨?_, ?_, ?_⟩
  · rintro ⟨h1, h2⟩
    simp [runPageGen, pageStep, h1, h2, Except.bind, Except.map]
  · intro df hdf ht
    simp [runPageGen, pageStep, hdf, generate_html, ht, Except.bind, Except.map]
  · intro h1 df hdf ht
    simp [runPageGen, pageStep, h1, hdf, generate_html, ht, Except.bind, Except.map]

/-- C3 (amended) witness: instantiated on the concrete environment with
the demographics template absent. -/
theorem c3_amended_silent_and_raising_witness :
    loadedFrames envNoDemoTemplate MetaKey.core_metrics
      = some ([[("College", Cell.str "A")]] : List (List (String × Cell))) ∧
    ¬ "demographics_template.html" ∈ envNoDemoTemplate.templates ∧
    (runPageGen envNoDemoTemplate).2
      = .error (.templateNotFound "demographics_template.html") :=
  ⟨rfl, by simp [envNoDemoTemplate],
   (c3_amended_silent_and_raising envNoDemoTemplate).2.1
     ([[("College", Cell.str "A")]] : List (List (String × Cell)))
     rfl (by simp [envNoDemoTemplate])⟩

/-- C4: with the templates present, a load failure of any metadata file
is logged for that file only and does not abort the run: every file is
attempted (the log has one entry per file, success or failure in
dictionary order), the run raises nothing, each page whose input frame
loaded is generated, and each page whose input frame failed to load is
skipped. -/
theorem c4_per_file_isolation (env : PGEnv)
    (ht1 : "demographics_template.html" ∈ env.templates)
    (ht2 : "evaluation_template.html" ∈ env.templates) :
    ((runPageGen env).1 = metaKeys.map (fun k =>
        match env.load k with
        | .ok _ => LoadLog.loaded k
        | .error e => LoadLog.failed k e)) ∧
    (∀ k e, env.load k = .error e → LoadLog.failed k e ∈ (runPageGen env).1) ∧
    (∀ k df, env.load k = .ok df → LoadLog.loaded k ∈ (runPageGen env).1) ∧
    ∃ ps : List PageOut, (runPageGen env).2 = .ok ps ∧
      ((∃ df, loadedFrames env MetaKey.core_metrics = some df) ↔
        "demographics.html" ∈ ps.map PageOut.file) ∧
      ((∃ df, loadedFrames env MetaKey.detailed_stats = some df) ↔
        "evaluation.html" ∈ ps.map PageOut.file) := by
  have hmem : ∀ k : MetaKey, k ∈ metaKeys := by
    intro k
    cases k <;> simp [metaKeys]
  refine ⟨rfl, ?_, ?_, ?_⟩
  · intro k e he
    exact List.mem_map.mpr ⟨k, hmem k, by rw [he]⟩
  · intro k df hdf
    exact List.mem_map.mpr ⟨k, hmem k, by rw [hdf]⟩
  · rcases hco : loadedFrames env MetaKey.core_metrics with _ | df1 <;>
      rcases hds : loadedFrames env MetaKey.detailed_stats with _ | df2
    · exact ⟨[], by simp [runPageGen, pageStep, hco, hds, Except.bind, Except.map],
        by simp [hco], by simp [hds]⟩
    · refine ⟨[⟨"evaluation.html", env.render "evaluation_template.html"
          [("title", CtxVal.s "Evaluation Analysis"),
           ("evaluation_data", CtxVal.recs df2)]⟩], ?_, ?_, ?_⟩
      · simp [runPageGen, pageStep, hco, hds, generate_html, ht2, Except.bind, Except.map]
      · simp [hco]
      · simp [hds]
    · refine ⟨[⟨"demographics.html", env.render "demographics_template.html"
          [("title", CtxVal.s "Demographics Analysis"),
           ("college_distribution", CtxVal.recs df1)]⟩], ?_, ?_, ?_⟩
      · simp [runPageGen, pageStep, hco, hds, generate_html, ht1, Except.bind, Except.map]
      · simp [hco]
      · simp [hds]
    · refine ⟨[⟨"demographics.html", env.render "demographics_template.html"
          [("title", CtxVal.s "Demographics Analysis"),
           ("college_distribution", CtxVal.recs df1)]⟩,
        ⟨"evaluation.html", env.render "evaluation_template.html"
          [("title", CtxVal.s "Evaluation Analysis"),
           ("evaluation_data", CtxVal.recs df2)]⟩], ?_, ?_, ?_⟩
      · simp [runPageGen, pageStep, hco, hds, generate_html, ht1, ht2, Except.bind, Except.map]
      · simp [hco]
      · simp [hds]

/-- An environment in which only `detailed_stats` loads and both wired
templates exist. -/
def envOneLoad : PGEnv :=
  { load := fun k =>
      match k with
      | .detailed_stats => .ok ([] : List (List (String × Cell)))
      | _ => .error "FileNotFoundError",
    templates := ["demographics_template.html", "evaluation_template.html"],
    render := fun _ _ => "" }

/-- C4 witness: with four of five files failing to load, the failures are
logged per file, nothing raises, and exactly the evaluation page is
generated. -/
theorem c4_per_file_isolation_witness :
    ("demographics_template.html" ∈ envOneLoad.templates ∧
     "evaluation_template.html" ∈ envOneLoad.templates) ∧
    (∀ k e, envOneLoad.load k = .error e →
      LoadLog.failed k e ∈ (runPageGen envOneLoad).1) ∧
    ∃ ps : List PageOut, (runPageGen envOneLoad).2 = .ok ps ∧
      ((∃ df, loadedFrames envOneLoad MetaKey.core_metrics = some df) ↔
        "demographics.html" ∈ ps.map PageOut.file) ∧
      ((∃ df, loadedFrames envOneLoad MetaKey.detailed_stats = some df) ↔
        "evaluation.html" ∈ ps.map PageOut.file) :=
  ⟨⟨by simp [envOneLoad], by simp [envOneLoad]⟩,
   (c4_per_file_isolation envOneLoad (by simp [envOneLoad])
      (by simp [envOneLoad])).2.1,
   (c4_per_file_isolation envOneLoad (by simp [envOneLoad])
      (by simp [envOneLoad])).2.2.2⟩
